import Mathlib

/-!
Verification of the document-management HTTP routes of meilisearch
(file meilisearch-http/src/routes/indexes/documents.rs), as a shallow
embedding in Lean 4.  Routing, content-type guards, the payload
forwarding loop, the mutation handlers and the browse-query parsing are
translated from the Rust source; the asynchronous backend is abstracted
as an explicit registration function passed to each handler.
-/

namespace MeiliDocs

/-- Substring test on character lists: `starts_with pat l` holds when
`pat` is an initial segment of `l`.  Mirrors the leading-segment step of Rust
`str::contains`. -/
def starts_with : List Char → List Char → Bool
  | [], _ => true
  | _ :: _, [] => false
  | p :: ps, c :: cs => p == c && starts_with ps cs

/-- Substring containment on character lists, the semantics of Rust
`str::contains` used by the content-type guards. -/
def contains_sub (pat : List Char) : List Char → Bool
  | [] => starts_with pat []
  | c :: cs => starts_with pat (c :: cs) || contains_sub pat cs

/-- Request head as far as the guards inspect it: the optional
`Content-Type` header value. -/
structure RequestHead where
  contentType : Option String

/-- Embedding of the guard_content_type template: the guard is true when
the header is present and its value contains the given media type. -/
def guard_content_type (guard_value : String) (head : RequestHead) : Bool :=
  match head.contentType with
  | some ct => contains_sub guard_value.toList ct.toList
  | none => false

/-- Guard for the media type "application/json". -/
def guard_json (head : RequestHead) : Bool :=
  guard_content_type "application/json" head

/-- Guard for the media type "application/csv". -/
def guard_csv (head : RequestHead) : Bool :=
  guard_content_type "application/csv" head

/-- HTTP methods used by the routing table in `configure`. -/
inductive Method where
  | get
  | post
  | delete
deriving DecidableEq

/-- Tags for the nine handler functions of the module. -/
inductive HandlerTag where
  | getAllDocuments
  | addDocumentsJson
  | addDocumentsCsv
  | updateDocumentsJson
  | updateDocumentsCsv
  | clearAllDocuments
  | deleteDocuments
  | getDocument
  | deleteDocument
deriving DecidableEq

/-- One registered route: method, extra guard, handler.  In actix-web a
route fires only when the method matches and every guard accepts. -/
structure Route where
  method : Method
  guard : RequestHead → Bool
  handler : HandlerTag

/-- Routes of the base resource `""`, in registration order
(documents.rs, `configure`, lines 56-64). -/
def base_routes : List Route :=
  [⟨Method.get, fun _ => true, HandlerTag.getAllDocuments⟩,
   ⟨Method.post, guard_json, HandlerTag.addDocumentsJson⟩,
   ⟨Method.post, guard_csv, HandlerTag.addDocumentsCsv⟩,
   ⟨Method.post, guard_json, HandlerTag.updateDocumentsJson⟩,
   ⟨Method.post, guard_csv, HandlerTag.updateDocumentsCsv⟩,
   ⟨Method.delete, fun _ => true, HandlerTag.clearAllDocuments⟩]

/-- Routes of the resource `"/delete-batch"` (line 66). -/
def delete_batch_routes : List Route :=
  [⟨Method.post, fun _ => true, HandlerTag.deleteDocuments⟩]

/-- Routes of the resource `"/\x7bdocument_id\x7d"` (lines 67-71). -/
def document_id_routes : List Route :=
  [⟨Method.get, fun _ => true, HandlerTag.getDocument⟩,
   ⟨Method.delete, fun _ => true, HandlerTag.deleteDocument⟩]

/-- First-match-wins dispatch inside one resource: the first route whose
method matches and whose guard accepts handles the request. -/
def route_dispatch : List Route → Method → RequestHead → Option HandlerTag
  | [], _, _ => none
  | r :: rs, m, head =>
    if r.method = m then
      if r.guard head then some r.handler else route_dispatch rs m head
    else route_dispatch rs m head

/-- Path shapes under the documents scope: the base path, or one extra
segment. -/
inductive DocPath where
  | base
  | seg (s : String)

/-- Embedding of `configure`: resources are matched in registration
order, the literal `"/delete-batch"` resource before the
`"/\x7bdocument_id\x7d"` template, then routes fire first-match-wins. -/
def configure (p : DocPath) (m : Method) (head : RequestHead) : Option HandlerTag :=
  match p with
  | DocPath.base => route_dispatch base_routes m head
  | DocPath.seg s =>
    if s = "delete-batch" then route_dispatch delete_batch_routes m head
    else route_dispatch document_id_routes m head

/-- True exactly when the dispatched handler is one of the merge-update
variants. -/
def is_update_variant : Option HandlerTag → Bool
  | some HandlerTag.updateDocumentsJson => true
  | some HandlerTag.updateDocumentsCsv => true
  | _ => false

/-- Embedding of the forwarding loop spawned by `payload_to_stream`
(documents.rs lines 41-45): `while let Some(data) = payload.next().await
\x7b let _ = snd.send(data).await; \x7d`.  The body source is a chunk
list, and the outcome of the i-th send attempt is abstracted by
`send_ok i` (true while the consuming side of the channel is alive).
The result is the number of receives performed on the body source
together with the chunks whose send succeeded, in order.  The send
result is discarded and the loop continues in every case, exactly as
`let _ = ...` does. -/
def forward_from (send_ok : Nat → Bool) : List Nat → Nat → Nat × List Nat
  | [], _ => (0, [])
  | data :: rest, i =>
    let r := forward_from send_ok rest (i + 1)
    (r.1 + 1, if send_ok i then data :: r.2 else r.2)

/-- Forwarding loop started at attempt index 0, as in the source. -/
def payload_to_stream_forward (payload : List Nat) (send_ok : Nat → Bool) :
    Nat × List Nat :=
  forward_from send_ok payload 0

/-- Helper: the loop always performs one receive per chunk of the body
source and sends each chunk exactly once, keeping order. -/
theorem forward_from_spec (send_ok : Nat → Bool) (payload : List Nat) :
    ∀ i : Nat,
      (forward_from send_ok payload i).1 = payload.length ∧
      (forward_from send_ok payload i).2 =
        ((List.enumFrom i payload).filter (fun p => send_ok p.1)).map Prod.snd := by
  induction payload with
  | nil => intro i; simp [forward_from]
  | cons d rest ih =>
    intro i
    obtain ⟨h1, h2⟩ := ih (i + 1)
    by_cases hs : send_ok i = true <;>
      simp [forward_from, h1, h2, List.enumFrom, List.filter, hs]

/-- Channel capacity of the bounded mpsc channel created in
`payload_to_stream` (line 40: `mpsc::channel(1)`). -/
def CHANNEL_CAPACITY : Nat := 1

/-- State of the payload channel system: chunks not yet received from
the body source, chunks sitting unconsumed in the channel buffer, and
chunks already taken by the consumer. -/
structure ChannelState where
  pending : List Nat
  buffer : List Nat
  delivered : List Nat

/-- Small-step semantics of the forwarding pipeline: the producer may
send the next body chunk only when the bounded buffer has room (a full
buffer suspends the send), and the consumer may take the oldest
buffered chunk. -/
inductive channel_step : ChannelState → ChannelState → Prop
  | send (d : Nat) (pending buffer delivered : List Nat)
      (hroom : buffer.length < CHANNEL_CAPACITY) :
      channel_step ⟨d :: pending, buffer, delivered⟩
        ⟨pending, buffer ++ [d], delivered⟩
  | recv (d : Nat) (pending buffer delivered : List Nat) :
      channel_step ⟨pending, d :: buffer, delivered⟩
        ⟨pending, buffer, delivered ++ [d]⟩

/-- JSON values, the shape of serde_json::Value as used by the
delete-batch body (numbers restricted to integers, which covers every
value the verified claims mention). -/
inductive Json where
  | null
  | bool (b : Bool)
  | num (n : Int)
  | str (s : String)
  | arr (elems : List Json)
  | obj (fields : List (String × Json))

/-- Lowercase hexadecimal digit, as used by the serde_json escape
table. -/
def hex_digit (n : Nat) : Char :=
  if n < 10 then Char.ofNat (48 + n) else Char.ofNat (87 + n)

/-- Escaping of one character inside a JSON string literal, following
serde_json: quote and backslash are escaped, control characters get
their short forms or a \u00XX escape, everything else is verbatim. -/
def escape_char (c : Char) : List Char :=
  if c = '"' then ['\\', '"']
  else if c = '\\' then ['\\', '\\']
  else if c = Char.ofNat 8 then ['\\', 'b']
  else if c = Char.ofNat 9 then ['\\', 't']
  else if c = Char.ofNat 10 then ['\\', 'n']
  else if c = Char.ofNat 12 then ['\\', 'f']
  else if c = Char.ofNat 13 then ['\\', 'r']
  else if c.toNat < 32 then
    ['\\', 'u', '0', '0', hex_digit (c.toNat / 16), hex_digit (c.toNat % 16)]
  else [c]

/-- Escape every character of a JSON string body. -/
def escape_chars : List Char → List Char
  | [] => []
  | c :: cs => escape_char c ++ escape_chars cs

/-- A JSON string literal: quoted and escaped. -/
def quote_string (s : String) : String :=
  String.mk ('"' :: (escape_chars s.toList ++ ['"']))

mutual

/-- Compact serialization of a JSON value, the semantics of
serde_json::Value::to_string used by the delete-batch id coercion. -/
def Json.to_string : Json → String
  | Json.null => "null"
  | Json.bool true => "true"
  | Json.bool false => "false"
  | Json.num n => toString n
  | Json.str s => quote_string s
  | Json.arr elems => "[" ++ Json.arr_items elems ++ "]"
  | Json.obj fields => "\x7b" ++ Json.obj_items fields ++ "\x7d"

/-- Comma-separated serialization of array elements. -/
def Json.arr_items : List Json → String
  | [] => ""
  | [v] => Json.to_string v
  | v :: w :: rest => Json.to_string v ++ "," ++ Json.arr_items (w :: rest)

/-- Comma-separated serialization of object fields. -/
def Json.obj_items : List (String × Json) → String
  | [] => ""
  | [(k, v)] => quote_string k ++ ":" ++ Json.to_string v
  | (k, v) :: q :: rest =>
    quote_string k ++ ":" ++ Json.to_string v ++ "," ++ Json.obj_items (q :: rest)

end

/-- Semantics of serde_json::Value::as_str: the content of a string
value, and nothing for every other shape. -/
def Json.as_str : Json → Option String
  | Json.str s => some s
  | _ => none

/-- Document addition payload formats (meilisearch_lib
DocumentAdditionFormat). -/
inductive DocumentAdditionFormat where
  | json
  | csv
deriving DecidableEq

/-- Indexing methods (milli IndexDocumentsMethod): replace existing
documents or merge into them. -/
inductive IndexDocumentsMethod where
  | replaceDocuments
  | updateDocuments
deriving DecidableEq

/-- Update intents submitted to register_update (meilisearch_lib
Update).  The payload stream of a document addition is abstracted as
the list of chunks produced by the payload streamer. -/
inductive Update where
  | documentAddition (payload : List Nat) (primary_key : Option String)
      (method : IndexDocumentsMethod) (format : DocumentAdditionFormat)
  | deleteDocuments (ids : List String)
  | clearDocuments
deriving DecidableEq

/-- The freshly created update record, of which the handlers only read
the assigned identifier. -/
structure UpdateStatus where
  id : Nat
deriving DecidableEq

/-- Errors surfaced by the backend, treated as abstract by this module
and propagated verbatim by the question-mark operator. -/
structure ResponseError where
  code : Nat
deriving DecidableEq

/-- Type of the backend register_update operation: index uid, update
intent and the is-asynchronous flag, returning the update status or an
error. -/
def Reg : Type :=
  String → Update → Bool → Except ResponseError UpdateStatus

/-- Embedding of `delete_document` (lines 87-101): build a one-element
delete intent, register it with the asynchronous flag false, and answer
202 with the assigned update identifier. -/
def delete_document (reg : Reg) (index_uid document_id : String) :
    Except ResponseError (Nat × Json) := do
  let update_status ← reg index_uid (Update.deleteDocuments [document_id]) false
  pure (202, Json.obj [("updateId", Json.num (update_status.id : Int))])

/-- Embedding of `document_addition` (lines 183-204): build the
document addition intent around the streamed payload and register it
with the asynchronous flag true. -/
def document_addition (reg : Reg) (index_uid : String)
    (primary_key : Option String) (payload : List Nat)
    (format : DocumentAdditionFormat) (method : IndexDocumentsMethod) :
    Except ResponseError (Nat × Json) := do
  let update_status ← reg index_uid
    (Update.documentAddition payload primary_key method format) true
  pure (202, Json.obj [("updateId", Json.num (update_status.id : Int))])

/-- Embedding of `add_documents_json` (lines 146-153). -/
def add_documents_json (reg : Reg) (index_uid : String)
    (primary_key : Option String) (payload : List Nat) :
    Except ResponseError (Nat × Json) :=
  document_addition reg index_uid primary_key payload
    DocumentAdditionFormat.json IndexDocumentsMethod.replaceDocuments

/-- Embedding of `add_documents_csv` (lines 155-162). -/
def add_documents_csv (reg : Reg) (index_uid : String)
    (primary_key : Option String) (payload : List Nat) :
    Except ResponseError (Nat × Json) :=
  document_addition reg index_uid primary_key payload
    DocumentAdditionFormat.csv IndexDocumentsMethod.replaceDocuments

/-- Embedding of `update_documents_json` (lines 164-171). -/
def update_documents_json (reg : Reg) (index_uid : String)
    (primary_key : Option String) (payload : List Nat) :
    Except ResponseError (Nat × Json) :=
  document_addition reg index_uid primary_key payload
    DocumentAdditionFormat.json IndexDocumentsMethod.updateDocuments

/-- Embedding of `update_documents_csv` (lines 173-180). -/
def update_documents_csv (reg : Reg) (index_uid : String)
    (primary_key : Option String) (payload : List Nat) :
    Except ResponseError (Nat × Json) :=
  document_addition reg index_uid primary_key payload
    DocumentAdditionFormat.csv IndexDocumentsMethod.updateDocuments

/-- Id coercion of `delete_documents` (lines 212-219):
`v.as_str().map(String::from).unwrap_or_else(|| v.to_string())`, where
`map String::from` is the identity on the borrowed content. -/
def delete_documents_ids (body : List Json) : List String :=
  body.map (fun v => (Json.as_str v).getD (Json.to_string v))

/-- The delete intent built by `delete_documents` (line 221). -/
def delete_documents_update (body : List Json) : Update :=
  Update.deleteDocuments (delete_documents_ids body)

/-- Embedding of `delete_documents` (lines 206-227): coerce every body
value to an id string, register the delete intent, answer 202 with the
update identifier. -/
def delete_documents (reg : Reg) (index_uid : String) (body : List Json) :
    Except ResponseError (Nat × Json) := do
  let update_status ← reg index_uid (delete_documents_update body) false
  pure (202, Json.obj [("updateId", Json.num (update_status.id : Int))])

/-- Embedding of `clear_all_documents` (lines 229-239). -/
def clear_all_documents (reg : Reg) (index_uid : String) :
    Except ResponseError (Nat × Json) := do
  let update_status ← reg index_uid Update.clearDocuments false
  pure (202, Json.obj [("updateId", Json.num (update_status.id : Int))])

/-- Default offset constant (line 18). -/
def DEFAULT_RETRIEVE_DOCUMENTS_OFFSET : Nat := 0

/-- Default limit constant (line 19). -/
def DEFAULT_RETRIEVE_DOCUMENTS_LIMIT : Nat := 20

/-- Query parameters of the list-documents endpoint (BrowseQuery,
lines 103-109). -/
structure BrowseQuery where
  offset : Option Nat
  limit : Option Nat
  attributes_to_retrieve : Option String

/-- Semantics of Rust `str::split` on the comma character: groups of
characters between commas, keeping empty groups, with one group even
for the empty input. -/
def split_comma : List Char → List (List Char)
  | [] => [[]]
  | c :: cs =>
    if c = ',' then [] :: split_comma cs
    else
      match split_comma cs with
      | [] => [[c]]
      | p :: ps => (c :: p) :: ps

/-- The comma-separated elements of an attributes parameter, as
strings. -/
def split_attrs (s : String) : List String :=
  (split_comma s.toList).map String.mk

/-- Loop of `get_all_documents` (lines 118-124): push every name in
order, returning nothing as soon as a name equals "*". -/
def collect_names (acc : List String) : List String → Option (List String)
  | [] => some acc
  | name :: rest =>
    if name = "*" then none else collect_names (acc ++ [name]) rest

/-- Projection computed by `get_all_documents` (lines 117-126):
`params.attributes_to_retrieve.as_ref().and_then(...)` over the
comma-split names. -/
def get_all_documents_attributes (attributes_to_retrieve : Option String) :
    Option (List String) :=
  attributes_to_retrieve.bind (fun attrs => collect_names [] (split_attrs attrs))

/-- Arguments passed to the backend documents call by
`get_all_documents` (lines 128-134): offset, limit and projection. -/
def get_all_documents_query (params : BrowseQuery) :
    Nat × Nat × Option (List String) :=
  (params.offset.getD DEFAULT_RETRIEVE_DOCUMENTS_OFFSET,
   params.limit.getD DEFAULT_RETRIEVE_DOCUMENTS_LIMIT,
   get_all_documents_attributes params.attributes_to_retrieve)

/-- C1: on the base documents resource a POST is dispatched by the
content-type guards to the add (replace-by-default) handlers, and no
path, method and head anywhere in the routing table dispatches to a
merge-update variant handler: those routes are registered after the add
routes with identical guards, so first-match-wins dispatch never
reaches them, and no distinct route for them exists. -/
theorem update_route_unreachable :
    (∀ head : RequestHead,
      configure DocPath.base Method.post head =
        if guard_json head then some HandlerTag.addDocumentsJson
        else if guard_csv head then some HandlerTag.addDocumentsCsv
        else none) ∧
    (∀ (p : DocPath) (m : Method) (head : RequestHead),
      is_update_variant (configure p m head) = false) := by
  constructor
  · intro head
    by_cases hj : guard_json head = true <;>
      by_cases hc : guard_csv head = true <;>
        simp [configure, base_routes, route_dispatch, hj, hc]
  · intro p m head
    cases p with
    | base =>
      cases m <;>
        by_cases hj : guard_json head = true <;>
          by_cases hc : guard_csv head = true <;>
            simp [configure, base_routes, route_dispatch, is_update_variant,
              hj, hc]
    | seg s =>
      by_cases hs : s = "delete-batch" <;>
        cases m <;>
          simp [configure, delete_batch_routes, document_id_routes,
            route_dispatch, is_update_variant, hs]

/-- C8: every request whose path ends in the `/delete-batch` segment is
handled by the batch-delete resource: POST invokes the batch-delete
handler, and no method or head dispatches to the single-document
handlers with document id "delete-batch". -/
theorem delete_batch_route_precedence :
    ∀ (m : Method) (head : RequestHead),
      configure (DocPath.seg "delete-batch") m head =
        if m = Method.post then some HandlerTag.deleteDocuments else none := by
  intro m head
  cases m <;> simp [configure, delete_batch_routes, route_dispatch]

/-- C2 counterexample: it is false that after a failed send the
forwarding loop performs no further receives from the body source.
With a three-chunk body whose consumer is gone after one chunk, the
send at attempt index 1 fails, yet the loop still performs all three
receives instead of stopping at two. -/
theorem forwarding_stops_on_failure_cex :
    ¬ (∀ (payload : List Nat) (send_ok : Nat → Bool) (i : Nat),
        send_ok i = false → i < payload.length →
        (payload_to_stream_forward payload send_ok).1 ≤ i + 1) := by
  intro h
  have h3 := h [10, 20, 30] (fun i => decide (i < 1)) 1 (by decide) (by decide)
  exact absurd h3 (by decide)

/-- C2 amended: a failed send is silently discarded, with no retry of
the chunk and no error reported, but the forwarding loop does not stop:
it keeps receiving until the body source is exhausted, performing one
receive per chunk and one send attempt per chunk, and the successfully
sent chunks are exactly those whose attempt succeeded, in body order. -/
theorem forwarding_discards_send_failures
    (payload : List Nat) (send_ok : Nat → Bool) :
    (payload_to_stream_forward payload send_ok).1 = payload.length ∧
    (payload_to_stream_forward payload send_ok).2 =
      ((List.enumFrom 0 payload).filter (fun p => send_ok p.1)).map Prod.snd :=
  forward_from_spec send_ok payload 0

/-- C6: every state of the forwarding pipeline reachable from an intact
body of any size holds at most `CHANNEL_CAPACITY = 1` unconsumed chunk
in the channel buffer. -/
theorem channel_buffer_bounded (payload : List Nat) (s : ChannelState)
    (h : Relation.ReflTransGen channel_step ⟨payload, [], []⟩ s) :
    s.buffer.length ≤ CHANNEL_CAPACITY := by
  induction h with
  | refl => simp [CHANNEL_CAPACITY]
  | tail hab hbc ih =>
    cases hbc with
    | send d pending buffer delivered hroom =>
      simpa using hroom
    | recv d pending buffer delivered =>
      simp at ih ⊢
      omega

/-- C6 witness: after the producer sends the first chunk of a two-chunk
body, the reached state has exactly one buffered chunk, within the
bound. -/
theorem channel_buffer_bounded_witness :
    (ChannelState.mk [20] [10] []).buffer.length ≤ CHANNEL_CAPACITY :=
  channel_buffer_bounded [10, 20] ⟨[20], [10], []⟩
    (Relation.ReflTransGen.single
      (channel_step.send 10 [20] [] [] (by decide)))

/-- Helper: the push loop over attribute names returns nothing exactly
when "*" occurs, and otherwise appends all names in order. -/
theorem collect_names_eq (l : List String) :
    ∀ acc : List String,
      collect_names acc l = if "*" ∈ l then none else some (acc ++ l) := by
  induction l with
  | nil => intro acc; simp [collect_names]
  | cons name rest ih =>
    intro acc
    by_cases h : name = "*"
    · simp [collect_names, h]
    · by_cases hr : "*" ∈ rest <;>
        simp [collect_names, h, ih, hr, Ne.symm h]

/-- C5: the projection handed to the backend is empty when the
parameter is omitted or any comma-separated element equals "*", and is
otherwise exactly the comma-split element list with duplicates and
order preserved; in particular an omitted parameter and a "*" parameter
are observably identical. -/
theorem attributes_projection :
    (get_all_documents_attributes none = none) ∧
    (get_all_documents_attributes (some "*") = none) ∧
    (∀ s : String,
      get_all_documents_attributes (some s) =
        if "*" ∈ split_attrs s then none else some (split_attrs s)) := by
  refine ⟨rfl, by decide, fun s => ?_⟩
  simp [get_all_documents_attributes, collect_names_eq]

/-- C9 counterexample: the limit passed to the backend is not always
positive: a request with an explicit limit of 0 is accepted by the
handler and 0 is passed through to the backend. -/
theorem limit_positive_cex :
    ¬ (∀ params : BrowseQuery, 0 < (get_all_documents_query params).2.1) := by
  intro h
  exact absurd (h ⟨none, some 0, none⟩) (by decide)

/-- C9 amended: the offset defaults to 0 and the limit defaults to 20
when the client omits them, and the default limit is positive; but a
client-supplied value is passed through unvalidated, so a supplied
limit of 0 reaches the backend. -/
theorem browse_query_defaults :
    (∀ attrs : Option String,
      get_all_documents_query ⟨none, none, attrs⟩ =
        (DEFAULT_RETRIEVE_DOCUMENTS_OFFSET, DEFAULT_RETRIEVE_DOCUMENTS_LIMIT,
          get_all_documents_attributes attrs)) ∧
    0 < DEFAULT_RETRIEVE_DOCUMENTS_LIMIT ∧
    (∀ (o l : Nat) (attrs : Option String),
      get_all_documents_query ⟨some o, some l, attrs⟩ =
        (o, l, get_all_documents_attributes attrs)) := by
  exact ⟨fun attrs => rfl, by decide, fun o l attrs => rfl⟩

/-- Helper: the delete-batch coercion of one value, stated by cases. -/
theorem coerce_id_eq (v : Json) :
    (Json.as_str v).getD (Json.to_string v) =
      (match v with
        | Json.str s => s
        | v => Json.to_string v) := by
  cases v <;> rfl

/-- C4: the delete-batch body values are coerced position by position
in body order, a JSON string passing verbatim and every other value
serialized to its canonical JSON text; the delete intent carries
exactly that id list; on the body from the spec example the ids are
"a", "3" and the canonical text of the object. -/
theorem delete_batch_coercion :
    (∀ body : List Json,
      delete_documents_ids body =
        body.map (fun v =>
          match v with
          | Json.str s => s
          | v => Json.to_string v)) ∧
    (∀ body : List Json,
      delete_documents_update body =
        Update.deleteDocuments (delete_documents_ids body)) ∧
    delete_documents_ids
        [Json.str "a", Json.num 3, Json.obj [("x", Json.num 1)]] =
      ["a", "3", "\x7b\"x\":1\x7d"] := by
  refine ⟨fun body => ?_, fun body => rfl, by decide⟩
  induction body with
  | nil => rfl
  | cons v rest ih =>
    simpa [delete_documents_ids, coerce_id_eq v] using ih

/-- C3: every mutation handler whose registration succeeds answers 202
with a body holding exactly the single field updateId bound to the
identifier assigned by the backend, for all four mutation kinds. -/
theorem mutation_response_contract (reg : Reg)
    (index_uid document_id : String) (primary_key : Option String)
    (payload : List Nat) (format : DocumentAdditionFormat)
    (method : IndexDocumentsMethod) (body : List Json)
    (st1 st2 st3 st4 : UpdateStatus)
    (h1 : reg index_uid (Update.deleteDocuments [document_id]) false =
      Except.ok st1)
    (h2 : reg index_uid
        (Update.documentAddition payload primary_key method format) true =
      Except.ok st2)
    (h3 : reg index_uid (delete_documents_update body) false = Except.ok st3)
    (h4 : reg index_uid Update.clearDocuments false = Except.ok st4) :
    delete_document reg index_uid document_id =
      Except.ok (202, Json.obj [("updateId", Json.num (st1.id : Int))]) ∧
    document_addition reg index_uid primary_key payload format method =
      Except.ok (202, Json.obj [("updateId", Json.num (st2.id : Int))]) ∧
    delete_documents reg index_uid body =
      Except.ok (202, Json.obj [("updateId", Json.num (st3.id : Int))]) ∧
    clear_all_documents reg index_uid =
      Except.ok (202, Json.obj [("updateId", Json.num (st4.id : Int))]) := by
  refine ⟨?_, ?_, ?_, ?_⟩
  · unfold delete_document
    rw [h1]; rfl
  · unfold document_addition
    rw [h2]; rfl
  · unfold delete_documents
    rw [h3]; rfl
  · unfold clear_all_documents
    rw [h4]; rfl

/-- C3 witness: with a backend assigning identifier 7 to every
registration, all four mutation handlers answer 202 with updateId 7. -/
theorem mutation_response_contract_witness :
    delete_document (fun _ _ _ => Except.ok ⟨7⟩) "movies" "d1" =
      Except.ok (202, Json.obj [("updateId", Json.num 7)]) ∧
    document_addition (fun _ _ _ => Except.ok ⟨7⟩) "movies" none [1, 2]
        DocumentAdditionFormat.json IndexDocumentsMethod.replaceDocuments =
      Except.ok (202, Json.obj [("updateId", Json.num 7)]) ∧
    delete_documents (fun _ _ _ => Except.ok ⟨7⟩) "movies" [Json.str "a"] =
      Except.ok (202, Json.obj [("updateId", Json.num 7)]) ∧
    clear_all_documents (fun _ _ _ => Except.ok ⟨7⟩) "movies" =
      Except.ok (202, Json.obj [("updateId", Json.num 7)]) :=
  mutation_response_contract (fun _ _ _ => Except.ok ⟨7⟩) "movies" "d1" none
    [1, 2] DocumentAdditionFormat.json IndexDocumentsMethod.replaceDocuments
    [Json.str "a"] ⟨7⟩ ⟨7⟩ ⟨7⟩ ⟨7⟩ rfl rfl rfl rfl

/-- C7: when registration fails, every mutation handler propagates the
backend error verbatim and emits no accepted response carrying an
updateId; registration is all-or-nothing at this layer. -/
theorem mutation_error_propagation (reg : Reg)
    (index_uid document_id : String) (primary_key : Option String)
    (payload : List Nat) (format : DocumentAdditionFormat)
    (method : IndexDocumentsMethod) (body : List Json)
    (e1 e2 e3 e4 : ResponseError)
    (h1 : reg index_uid (Update.deleteDocuments [document_id]) false =
      Except.error e1)
    (h2 : reg index_uid
        (Update.documentAddition payload primary_key method format) true =
      Except.error e2)
    (h3 : reg index_uid (delete_documents_update body) false = Except.error e3)
    (h4 : reg index_uid Update.clearDocuments false = Except.error e4) :
    delete_document reg index_uid document_id = Except.error e1 ∧
    document_addition reg index_uid primary_key payload format method =
      Except.error e2 ∧
    delete_documents reg index_uid body = Except.error e3 ∧
    clear_all_documents reg index_uid = Except.error e4 := by
  refine ⟨?_, ?_, ?_, ?_⟩
  · unfold delete_document
    rw [h1]; rfl
  · unfold document_addition
    rw [h2]; rfl
  · unfold delete_documents
    rw [h3]; rfl
  · unfold clear_all_documents
    rw [h4]; rfl

/-- C7 witness: with a backend refusing every registration with error
code 500, all four mutation handlers surface that error. -/
theorem mutation_error_propagation_witness :
    delete_document (fun _ _ _ => Except.error ⟨500⟩) "movies" "d1" =
      Except.error ⟨500⟩ ∧
    document_addition (fun _ _ _ => Except.error ⟨500⟩) "movies" none [1, 2]
        DocumentAdditionFormat.csv IndexDocumentsMethod.updateDocuments =
      Except.error ⟨500⟩ ∧
    delete_documents (fun _ _ _ => Except.error ⟨500⟩) "movies" [] =
      Except.error ⟨500⟩ ∧
    clear_all_documents (fun _ _ _ => Except.error ⟨500⟩) "movies" =
      Except.error ⟨500⟩ :=
  mutation_error_propagation (fun _ _ _ => Except.error ⟨500⟩) "movies" "d1"
    none [1, 2] DocumentAdditionFormat.csv IndexDocumentsMethod.updateDocuments
    [] ⟨500⟩ ⟨500⟩ ⟨500⟩ ⟨500⟩ rfl rfl rfl rfl

/-- C10: an empty delete-batch body is not rejected: the handler builds
a delete intent with the empty id list and, on successful registration,
answers 202 with the update identifier exactly as for a non-empty
batch. -/
theorem empty_delete_batch (reg : Reg) (index_uid : String)
    (st : UpdateStatus)
    (h : reg index_uid (Update.deleteDocuments []) false = Except.ok st) :
    delete_documents_update [] = Update.deleteDocuments [] ∧
    delete_documents reg index_uid [] =
      Except.ok (202, Json.obj [("updateId", Json.num (st.id : Int))]) := by
  refine ⟨rfl, ?_⟩
  unfold delete_documents
  rw [show delete_documents_update ([] : List Json) =
    Update.deleteDocuments [] from rfl, h]
  rfl

/-- C10 witness: with a backend assigning identifier 0, the empty
delete-batch is accepted with updateId 0. -/
theorem empty_delete_batch_witness :
    delete_documents_update [] = Update.deleteDocuments [] ∧
    delete_documents (fun _ _ _ => Except.ok ⟨0⟩) "movies" [] =
      Except.ok (202, Json.obj [("updateId", Json.num 0)]) :=
  empty_delete_batch (fun _ _ _ => Except.ok ⟨0⟩) "movies" ⟨0⟩ rfl

end MeiliDocs
